import Mathlib

/-
Shallow embedding of `src/main.py` (food-nutrition record manager).

Modelling conventions:
- Python runtime values that can sit in a `FoodData` field are `PyVal`:
  a text value (`str`), a numeric value (`num`, Python `float` modelled as an
  exact rational — every numeric value the program itself produces comes from
  `float(input(...))` on a decimal literal, hence is a short terminating
  decimal), or Python `None` (the padding value `csv.DictReader` uses for a
  short row).
- Exceptions are modelled with `Except PyErr`; `PyErr` lists the exception
  classes the modelled code can actually raise.
- `DataManager` carries the instance attributes `data` and `filename`.
  The backing CSV file is modelled structurally as the list of its rows,
  each row a list of cell strings (the `csv` module transports a list of
  strings faithfully, quoting embedded delimiters), `Option CsvFile` when the
  file may not exist yet.
- `print` calls have no effect on the store or the file and are omitted.
-/

namespace FoodApp

/-- A Python value stored in a record field or produced by attribute lookup:
text, a float, `None`, or any other object (a bound method, a class, a dict —
values `getattr` can return for inherited attributes). An `obj` carries the
attribute name it was looked up under; such objects are never equal (`==`) to
a text, number or `None` value, which is the only comparison the modelled
flows perform on them (the program's filter value is always CLI text). -/
inductive PyVal where
| str : String → PyVal
| num : ℚ → PyVal
| none : PyVal
| obj : String → PyVal
deriving DecidableEq

/-- The Python exception classes reachable in the modelled code paths. -/
inductive PyErr where
| attributeError
| valueError
| typeError
| statisticsError
| fileNotFoundError
deriving DecidableEq

/-- Python class `FoodData`: one food item (src/main.py lines 4-18). Python does not
enforce field types, so each field holds a `PyVal`. -/
structure FoodData where
  food_item : PyVal
  calories : PyVal
  protein : PyVal
  carbs : PyVal
deriving DecidableEq

/-- The instance attributes of `DataManager` (src/main.py lines 40-48). -/
structure DataManager where
  data : List FoodData
  filename : String
deriving DecidableEq

/-- The backing CSV file as a list of rows of cell strings. -/
structure CsvFile where
  rows : List (List String)
deriving DecidableEq

/-- Decimal digits of the fraction `rem / d` (with `rem < d`), one per fuel
step by long division: Python prints a float exactly when its value is a
terminating decimal, which is the only kind the modelled program produces
(17 digits bounds a double's shortest repr). -/
def fracDigitsAux (d : Nat) : Nat → Nat → String
| _, 0 => ""
| rem, Nat.succ fuel =>
  if rem = 0 then ""
  else toString (rem * 10 / d) ++ fracDigitsAux d (rem * 10 % d) fuel

/-- Python `str` of a float: optional sign, integer part, a point, and at
least one fractional digit (`str(100.0) = "100.0"`, `str(0.25) = "0.25"`). -/
def floatRepr (q : ℚ) : String :=
  let n := q.num.natAbs
  let d := q.den
  let ds := fracDigitsAux d (n % d) 17
  (if q.num < 0 then "-" else "") ++ toString (n / d) ++ "." ++
    (if ds = "" then "0" else ds)

/-- How `csv.writer.writerow` renders one cell: a string verbatim, a float via
`str`, and `None` as the empty string. An `obj` would render as its
descriptive repr text (stood in for by its tag); no record field ever holds
one in the program, so saves never reach that case. -/
def csvCell : PyVal → String
| .str s => s
| .num q => floatRepr q
| .none => ""
| .obj tag => tag

/-- The header row `save_data` writes (src/main.py line 63). -/
def headerRow : List String := ["food_item", "calories", "protein", "carbs"]

/-- Method `DataManager.save_data` (src/main.py lines 59-65): header row, then one
row per record in order, each field rendered by the csv writer. -/
def save_data (dm : DataManager) : CsvFile :=
  ⟨headerRow ::
    dm.data.map (fun it => [csvCell it.food_item, csvCell it.calories,
      csvCell it.protein, csvCell it.carbs])⟩

/-- Python dict insertion: an existing key keeps its position and gets the new
value, a new key goes to the end. -/
def dictInsert (d : List (String × PyVal)) (k : String) (v : PyVal) :
    List (String × PyVal) :=
  match d with
  | [] => [(k, v)]
  | (k0, v0) :: rest =>
    if k0 = k then (k0, v) :: rest else (k0, v0) :: dictInsert rest k v

/-- Python dict lookup. -/
def dictGet (d : List (String × PyVal)) (k : String) : Option PyVal :=
  match d with
  | [] => Option.none
  | (k0, v0) :: rest => if k0 = k then some v0 else dictGet rest k

/-- The dict `csv.DictReader` builds for one data row: fieldnames zipped with
the row's cells, fieldnames beyond the row's length mapped to `restval`,
which is `None`. -/
def buildDict (fieldnames row : List String) : List (String × PyVal) :=
  let d0 := (fieldnames.zip row).foldl
    (fun d kv => dictInsert d kv.1 (PyVal.str kv.2)) []
  (fieldnames.drop row.length).foldl (fun d k => dictInsert d k PyVal.none) d0

/-- Call `FoodData(**row)`: it succeeds exactly when the keyword dict binds precisely
the four parameters of `FoodData.__init__`; otherwise Python raises a
`TypeError` (missing argument, unexpected keyword). -/
def mkFoodData (d : List (String × PyVal)) : Except PyErr FoodData :=
  match dictGet d "food_item", dictGet d "calories",
        dictGet d "protein", dictGet d "carbs" with
  | some fi, some c, some p, some cb =>
    if d.length = 4 then .ok ⟨fi, c, p, cb⟩ else .error .typeError
  | _, _, _, _ => .error .typeError

/-- One data row through `DictReader` then `FoodData(**row)`. A row longer
than the header puts the extra cells under the `restkey` `None`, and
`FoodData(**row)` then raises `TypeError` (keywords must be strings). -/
def rowToFoodData (fieldnames row : List String) : Except PyErr FoodData :=
  if fieldnames.length < row.length then .error .typeError
  else mkFoodData (buildDict fieldnames row)

/-- Method `DataManager.read_data` (src/main.py lines 50-57), the parsing part: the
first row is the fieldnames, blank rows are skipped by `DictReader`, and each
remaining row becomes `FoodData(**row)`. Note there is NO numeric coercion:
every present cell stays a string. The list comprehension is evaluated in
full before `self.data` is assigned, so an exception leaves `data` unchanged;
the result here is the new `data` on success. -/
def read_data (f : CsvFile) : Except PyErr (List FoodData) :=
  match f.rows with
  | [] => .ok []
  | fieldnames :: rest =>
    (rest.filter (fun r => !r.isEmpty)).mapM (rowToFoodData fieldnames)

/-- Operation-level `read_data`: opening a missing file raises
`FileNotFoundError`; on success the whole `data` list is replaced. -/
def read_data_op (dm : DataManager) (fs : Option CsvFile) :
    Except PyErr DataManager :=
  match fs with
  | Option.none => .error .fileNotFoundError
  | some f => (read_data f).map (fun ds => { dm with data := ds })

/-- The docstring of `FoodData` (src/main.py lines 5-13), the value of its
`__doc__` attribute. -/
def FoodData_doc : String :=
  "\n    Represents a single food item with its nutritional values.\n\n    Attributes:\n        food_item (str): The name of the food item.\n        calories (float): Caloric content of the food item.\n        protein (float): Protein content of the food item.\n        carbs (float): Carbohydrate content of the food item.\n    "

/-- Class and inherited attribute names that `getattr` resolves on a
`FoodData` instance besides the four data fields, with their values
(inventory of a plain class instance under CPython 3.11: `__doc__` is the
docstring, `__module__` the module name, `__weakref__` is `None` on a fresh
instance, and the rest — the class, the instance dict and the inherited
methods of `object` — are non-str, non-float objects). Every other name makes
`getattr` raise `AttributeError`, dunder-looking names included. -/
def inheritedAttr (field : String) : Option PyVal :=
  if field = "__doc__" then some (.str FoodData_doc)
  else if field = "__module__" then some (.str "__main__")
  else if field = "__weakref__" then some .none
  else if field ∈ ["__class__", "__dict__", "__delattr__", "__dir__",
      "__eq__", "__format__", "__ge__", "__getattribute__", "__getstate__",
      "__gt__", "__hash__", "__init__", "__init_subclass__", "__le__",
      "__lt__", "__ne__", "__new__", "__reduce__", "__reduce_ex__",
      "__repr__", "__setattr__", "__sizeof__", "__str__",
      "__subclasshook__"] then some (.obj field)
  else Option.none

/-- Python `getattr(item, field)`: the four instance attributes set by
`FoodData.__init__`, then the class and inherited attributes; any other name
raises `AttributeError`. -/
def getattrFD (item : FoodData) (field : String) : Except PyErr PyVal :=
  if field = "food_item" then .ok item.food_item
  else if field = "calories" then .ok item.calories
  else if field = "protein" then .ok item.protein
  else if field = "carbs" then .ok item.carbs
  else
    match inheritedAttr field with
    | some v => .ok v
    | Option.none => .error .attributeError

/-- Python `==` between field values: values of different types (text vs
number vs `None` vs other objects) are never equal; no coercion happens.
Two `obj` values compare by their tag — the same attribute of the same
instance; the modelled flows never compare two such objects anyway, since the
program's filter value is always text from `input()`. -/
def pyEq : PyVal → PyVal → Bool
| .str a, .str b => decide (a = b)
| .num a, .num b => decide (a = b)
| .none, .none => true
| .obj a, .obj b => decide (a = b)
| _, _ => false

/-- Leading decimal digits of a character list, and the rest. -/
def takeDigits : List Char → List Char × List Char
| [] => ([], [])
| c :: rest =>
  if c.isDigit then
    let (ds, r) := takeDigits rest
    (c :: ds, r)
  else ([], c :: rest)

/-- Numeric value of a digit list. -/
def digitsVal (ds : List Char) : Nat :=
  ds.foldl (fun a c => a * 10 + (c.toNat - 48)) 0

/-- An unsigned decimal: `digits`, `digits.digits`, `digits.` or `.digits`. -/
def parseUnsigned (cs : List Char) : Option (ℚ × List Char) :=
  let (ip, r1) := takeDigits cs
  match r1 with
  | '.' :: r2 =>
    let (fp, r3) := takeDigits r2
    if ip.isEmpty && fp.isEmpty then Option.none
    else some ((digitsVal ip : ℚ) + (digitsVal fp : ℚ) / ((10 : ℚ) ^ fp.length), r3)
  | _ =>
    if ip.isEmpty then Option.none else some ((digitsVal ip : ℚ), r1)

/-- Whitespace characters Python `float` strips around a numeric string. -/
def isPySpace (c : Char) : Bool :=
  c == ' ' || c == '\t' || c == '\n' || c == '\r' || c == '\x0b' || c == '\x0c'

/-- Leading whitespace dropped from a character list. -/
def dropWhileSpace : List Char → List Char
| [] => []
| c :: rest => if isPySpace c then dropWhileSpace rest else c :: rest

/-- Whitespace stripped from both ends (trailing via a reversal). -/
def trimPy (cs : List Char) : List Char :=
  dropWhileSpace (dropWhileSpace cs.reverse).reverse

/-- An exponent tail after `e`/`E`: optional sign then digits. -/
def parseExpTail (cs : List Char) : Option (Int × List Char) :=
  let (sgn, cs1) : Int × List Char :=
    match cs with
    | '+' :: r => (1, r)
    | '-' :: r => (-1, r)
    | _ => (1, cs)
  let (ds, rest) := takeDigits cs1
  if ds.isEmpty then Option.none else some (sgn * (digitsVal ds : Int), rest)

/-- Python `float(s)` on a string: surrounding whitespace stripped, optional
sign, decimal digits with optional point and optional exponent. (`inf`, `nan`
and underscore separators are accepted by Python too but are unreachable in
the modelled flows.) Anything else raises `ValueError`. -/
def parsePyFloat (s : String) : Option ℚ :=
  let cs := trimPy s.data
  let (sgn, cs1) : ℚ × List Char :=
    match cs with
    | '+' :: r => (1, r)
    | '-' :: r => (-1, r)
    | _ => (1, cs)
  match parseUnsigned cs1 with
  | Option.none => Option.none
  | some (v, rest) =>
    match rest with
    | [] => some (sgn * v)
    | 'e' :: r =>
      match parseExpTail r with
      | some (e, []) => some (sgn * v * (10 : ℚ) ^ e)
      | _ => Option.none
    | 'E' :: r =>
      match parseExpTail r with
      | some (e, []) => some (sgn * v * (10 : ℚ) ^ e)
      | _ => Option.none
    | _ => Option.none

/-- Python `float(v)` on a field value: a number is returned, a string is
parsed (`ValueError` on failure), and `None` or any other object (a method,
a class, a dict) raises `TypeError`. -/
def pyFloat : PyVal → Except PyErr ℚ
| .num q => .ok q
| .str s =>
  match parsePyFloat s with
  | some q => .ok q
  | Option.none => .error .valueError
| .none => .error .typeError
| .obj _ => .error .typeError

/-- The comprehension `[float(getattr(item, field)) for item in self.data]`
shared by `calculate_mean` and `calculate_median` (src/main.py lines 87, 92):
items left to right, first exception wins. -/
def fieldValues (dm : DataManager) (field : String) : Except PyErr (List ℚ) :=
  dm.data.mapM (fun it => (getattrFD it field).bind pyFloat)

/-- Python `statistics.mean`: raises `StatisticsError` on an empty list, else the
arithmetic mean. -/
def statMean (vs : List ℚ) : Except PyErr ℚ :=
  if vs.length = 0 then .error .statisticsError
  else .ok (vs.sum / (vs.length : ℚ))

/-- Stable ascending insertion used to model Python `sorted`. -/
def insertSorted (x : ℚ) : List ℚ → List ℚ
| [] => [x]
| y :: rest => if x ≤ y then x :: y :: rest else y :: insertSorted x rest

/-- Ascending sort of the values (Python `sorted`). -/
def sortRats (l : List ℚ) : List ℚ :=
  l.foldr insertSorted []

/-- Python `statistics.median`: raises `StatisticsError` on an empty list; the middle
element of the sorted values, or the average of the two middle ones. -/
def statMedian (vs : List ℚ) : Except PyErr ℚ :=
  let n := vs.length
  if n = 0 then .error .statisticsError
  else
    let sorted := sortRats vs
    if n % 2 = 1 then .ok (sorted.getD (n / 2) 0)
    else .ok ((sorted.getD (n / 2 - 1) 0 + sorted.getD (n / 2) 0) / 2)

/-- Method `DataManager.calculate_mean` (src/main.py lines 85-88). -/
def calculate_mean (dm : DataManager) (field : String) : Except PyErr ℚ :=
  (fieldValues dm field).bind statMean

/-- Method `DataManager.calculate_median` (src/main.py lines 90-93). -/
def calculate_median (dm : DataManager) (field : String) : Except PyErr ℚ :=
  (fieldValues dm field).bind statMedian

/-- The comprehension of `filter_data`: `getattr` per item left to right
(first exception wins), keeping the items whose field compares `==` to
`value`. -/
def filterList (field : String) (value : PyVal) :
    List FoodData → Except PyErr (List FoodData)
| [] => .ok []
| it :: rest => do
  let v ← getattrFD it field
  let tail ← filterList field value rest
  pure (if pyEq v value then it :: tail else tail)

/-- Method `DataManager.filter_data` (src/main.py lines 95-97): raw `==` between the
stored field value and `value`, no coercion of either side. -/
def filter_data (dm : DataManager) (field : String) (value : PyVal) :
    Except PyErr (List FoodData) :=
  filterList field value dm.data

/-- Method `DataManager.add_data` (src/main.py lines 67-71): append the new record,
then `save_data`; the written file is the second component. -/
def add_data (dm : DataManager) (fi c p cb : PyVal) : DataManager × CsvFile :=
  let dm2 := { dm with data := dm.data ++ [⟨fi, c, p, cb⟩] }
  (dm2, save_data dm2)

/-- Method `DataManager.edit_data` (src/main.py lines 73-77): `0 <= index <
len(self.data)` guards both the in-place replacement and the save; otherwise
nothing happens (the file keeps its prior content `fs`). -/
def edit_data (dm : DataManager) (index : Int) (fi c p cb : PyVal)
    (fs : Option CsvFile) : DataManager × Option CsvFile :=
  if 0 ≤ index ∧ index < (dm.data.length : Int) then
    let dm2 := { dm with data := dm.data.set index.toNat ⟨fi, c, p, cb⟩ }
    (dm2, some (save_data dm2))
  else (dm, fs)

/-- Method `DataManager.delete_data` (src/main.py lines 79-83): same guard, `del
self.data[index]` then save; otherwise nothing happens. -/
def delete_data (dm : DataManager) (index : Int) (fs : Option CsvFile) :
    DataManager × Option CsvFile :=
  if 0 ≤ index ∧ index < (dm.data.length : Int) then
    let dm2 := { dm with data := dm.data.eraseIdx index.toNat }
    (dm2, some (save_data dm2))
  else (dm, fs)

/-- State-passing form of `calculate_mean`: its body reads `self.data`
and opens no file, so the store and the backing file come back unchanged. -/
def calculate_mean_op (dm : DataManager) (fs : Option CsvFile) (field : String) :
    Except PyErr ℚ × DataManager × Option CsvFile :=
  (calculate_mean dm field, dm, fs)

/-- State-passing form of `calculate_median`. -/
def calculate_median_op (dm : DataManager) (fs : Option CsvFile) (field : String) :
    Except PyErr ℚ × DataManager × Option CsvFile :=
  (calculate_median dm field, dm, fs)

/-- State-passing form of `filter_data`. -/
def filter_data_op (dm : DataManager) (fs : Option CsvFile) (field : String)
    (value : PyVal) :
    Except PyErr (List FoodData) × DataManager × Option CsvFile :=
  (filter_data dm field value, dm, fs)

/-- Process-wide state for the Singleton pattern: the class attribute
`DataManager._instance` (src/main.py line 40) and the backing file. Because
at most one instance ever exists, the heap is the slot itself. -/
structure ProcState where
  instSlot : Option DataManager
  file : Option CsvFile
deriving DecidableEq

/-- Constructor `DataManager.__new__` (src/main.py lines 42-48): on the first call the
instance is created with `data = []` and the default filename and stored in
the class attribute; every later call returns that stored instance as it
currently is, without re-initialising anything. -/
def DataManager_new (s : ProcState) : DataManager × ProcState :=
  match s.instSlot with
  | Option.none =>
    let dm : DataManager := ⟨[], "food_nutrition.csv"⟩
    (dm, { s with instSlot := some dm })
  | some dm => (dm, s)

/-- A method call on any constructed handle acts on the one shared instance
(every handle aliases the object in the class attribute): `add_data` through
the singleton. -/
def singleton_add (s : ProcState) (fi c p cb : PyVal) : ProcState :=
  match s.instSlot with
  | Option.none => s
  | some dm =>
    let r := add_data dm fi c p cb
    { instSlot := some r.1, file := some r.2 }


deriving instance DecidableEq for Except

/-! General lemmas about `List.eraseIdx` used for the delete operation. -/

/-- Positions before the erased index are untouched by `eraseIdx`. -/
theorem getElem?_eraseIdx_of_lt (l : List FoodData) (i j : Nat) (h : j < i) :
    (l.eraseIdx i)[j]? = l[j]? := by
  induction l generalizing i j with
  | nil => simp
  | cons a as ih =>
    cases i with
    | zero => omega
    | succ n =>
      cases j with
      | zero => simp [List.eraseIdx]
      | succ m => simpa [List.eraseIdx] using ih n m (by omega)

/-- Positions at or after an in-range erased index shift down by one. -/
theorem getElem?_eraseIdx_of_ge (l : List FoodData) (i j : Nat)
    (hi : i < l.length) (hj : i ≤ j) :
    (l.eraseIdx i)[j]? = l[j + 1]? := by
  induction l generalizing i j with
  | nil => simp at hi
  | cons a as ih =>
    cases i with
    | zero => simp [List.eraseIdx]
    | succ n =>
      cases j with
      | zero => omega
      | succ m => simpa [List.eraseIdx] using ih n m (by simpa using hi) (by omega)

/-! Concrete stores used by the individual claims. -/

/-- A store holding one record whose numeric fields are floats, as `add_data`
creates them from the shell's `float(input(...))` arguments. -/
def c1Store : DataManager :=
  ⟨[⟨.str "A", .num 100, .num 5, .num 10⟩], "food_nutrition.csv"⟩

/-- The spec's own filter example: records A, B, C with calories 100, 200,
200 held as floats. -/
def c2Store : DataManager :=
  ⟨[⟨.str "A", .num 100, .num 1, .num 2⟩, ⟨.str "B", .num 200, .num 3, .num 4⟩,
    ⟨.str "C", .num 200, .num 5, .num 6⟩], "food_nutrition.csv"⟩

/-- A two-record store for exercising `edit_data` at a concrete index. -/
def c4Store : DataManager :=
  ⟨[⟨.str "A", .num 1, .num 2, .num 3⟩, ⟨.str "B", .num 4, .num 5, .num 6⟩],
    "food_nutrition.csv"⟩

/-- A two-record store for exercising `delete_data` at a concrete index. -/
def c5Store : DataManager :=
  ⟨[⟨.str "A", .num 1, .num 2, .num 3⟩, ⟨.str "B", .num 4, .num 5, .num 6⟩],
    "food_nutrition.csv"⟩

/-- The trace "construct, add a record through the returned handle, construct
again": in Python both constructions return the object stored in the class
attribute, so the second construction sees the mutated data. -/
def c7Trace : DataManager :=
  (DataManager_new (singleton_add (DataManager_new ⟨Option.none, Option.none⟩).2
    (.str "A") (.num 100) (.num 5) (.num 10))).1

/-- An empty store with the default filename. -/
def c9EmptyStore : DataManager := ⟨[], "food_nutrition.csv"⟩

/-- A one-record store for the unknown-field error path. -/
def c9Store : DataManager :=
  ⟨[⟨.str "A", .num 100, .num 5, .num 10⟩], "food_nutrition.csv"⟩

/-- Claim C1 (code-bug evidence). The claim says `save()` then `load()`
reproduces the record sequence field-for-field. It does not: `read_data`
performs no numeric coercion, so the numeric fields `100.0`, `5.0`, `10.0` of
the saved record come back as the text values `"100.0"`, `"5.0"`, `"10.0"`
(the second conjunct shows the original fields were numbers). Order, length
and the name field do survive. -/
theorem c1_save_then_load_yields_text_fields :
    read_data (save_data c1Store) =
      .ok [⟨.str "A", .str "100.0", .str "5.0", .str "10.0"⟩] ∧
    c1Store.data = [⟨.str "A", .num 100, .num 5, .num 10⟩] :=
  ⟨by decide, by decide⟩

/-- Claim C2 (code-bug evidence). The claim says `filter` compares numerically
after coercing the value to the field's type. It does not: `filter_data` uses
raw `==`, so filtering the spec's example store by calories with the text
value `"200"` (exactly what the menu passes) silently returns nothing, while
the same call with the float value `200.0` returns the B and C records in
order. -/
theorem c2_filter_is_raw_equality_without_coercion :
    filter_data c2Store "calories" (.str "200") = .ok [] ∧
    filter_data c2Store "calories" (.num 200) =
      .ok [⟨.str "B", .num 200, .num 3, .num 4⟩,
        ⟨.str "C", .num 200, .num 5, .num 6⟩] :=
  ⟨by decide, by decide⟩

/-- Claim C3 (code-bug evidence). The claim says `load()` coerces the numeric
fields to floating point and fails with a `FormatError` on a missing field or
an unparseable number. The code does neither: a row whose calories cell is
the unparseable text `"abc"` loads successfully with the text kept verbatim,
and a row missing two of the four fields loads successfully with the missing
fields padded to `None` (no `FormatError` class exists in the program). -/
theorem c3_load_keeps_text_and_pads_missing_fields :
    read_data ⟨[headerRow, ["A", "abc", "2", "3"]]⟩ =
      .ok [⟨.str "A", .str "abc", .str "2", .str "3"⟩] ∧
    read_data ⟨[headerRow, ["A", "1"]]⟩ =
      .ok [⟨.str "A", .str "1", .none, .none⟩] :=
  ⟨by decide, by decide⟩

/-- Claim C4 (confirmed). With `0 ≤ index < length`, `edit_data` keeps the
length, puts a record equal to the inputs at `index`, leaves every other
position and the filename unchanged, and saves the new state; with any other
index it returns the store and the backing table exactly as they were,
performing no save. -/
theorem c4_edit_in_range_replaces_only_index_out_of_range_noop
    (dm : DataManager) (fs : Option CsvFile) (i : Int) (fi c p cb : PyVal) :
    (0 ≤ i ∧ i < (dm.data.length : Int) →
      ((edit_data dm i fi c p cb fs).1.data.length = dm.data.length ∧
       (edit_data dm i fi c p cb fs).1.data[i.toNat]? = some ⟨fi, c, p, cb⟩ ∧
       (∀ j : Nat, j ≠ i.toNat →
         (edit_data dm i fi c p cb fs).1.data[j]? = dm.data[j]?) ∧
       (edit_data dm i fi c p cb fs).1.filename = dm.filename ∧
       (edit_data dm i fi c p cb fs).2 =
         some (save_data (edit_data dm i fi c p cb fs).1))) ∧
    (¬(0 ≤ i ∧ i < (dm.data.length : Int)) →
      edit_data dm i fi c p cb fs = (dm, fs)) := by
  constructor
  · intro h
    have hn : i.toNat < dm.data.length := by omega
    simp only [edit_data, if_pos h]
    refine ⟨by simp, by simp [List.getElem?_set_eq_of_lt _ hn], ?_, ?_, ?_⟩
    · intro j hj
      simp [List.getElem?_set_ne (fun hh => hj hh.symm)]
    · trivial
    · trivial
  · intro h
    simp only [edit_data, if_neg h]

/-- Witness for C4: editing index 0 of a concrete two-record store places the
new record there, and editing index 5 of the same store changes nothing. -/
theorem c4_edit_witness :
    (edit_data c4Store 0 (.str "Z") (.num 7) (.num 8) (.num 9) Option.none).1.data[(0 : Int).toNat]? =
      some ⟨.str "Z", .num 7, .num 8, .num 9⟩ ∧
    edit_data c4Store 5 (.str "Z") (.num 7) (.num 8) (.num 9) Option.none =
      (c4Store, Option.none) :=
  ⟨((c4_edit_in_range_replaces_only_index_out_of_range_noop c4Store Option.none 0
      (.str "Z") (.num 7) (.num 8) (.num 9)).1 (by decide)).2.1,
   (c4_edit_in_range_replaces_only_index_out_of_range_noop c4Store Option.none 5
      (.str "Z") (.num 7) (.num 8) (.num 9)).2 (by decide)⟩

/-- Claim C5 (confirmed). With `0 ≤ index < length`, `delete_data` shrinks the
length by exactly one, keeps every position before `index`, shifts every
position at or after `index` down by one (so exactly the record at `index`
is removed), keeps the filename, and saves the new state; with any other
index both the store and the backing table are unchanged. -/
theorem c5_delete_shifts_down_out_of_range_noop
    (dm : DataManager) (fs : Option CsvFile) (i : Int) :
    (0 ≤ i ∧ i < (dm.data.length : Int) →
      ((delete_data dm i fs).1.data.length + 1 = dm.data.length ∧
       (∀ j : Nat, j < i.toNat → (delete_data dm i fs).1.data[j]? = dm.data[j]?) ∧
       (∀ j : Nat, i.toNat ≤ j → (delete_data dm i fs).1.data[j]? = dm.data[j + 1]?) ∧
       (delete_data dm i fs).1.filename = dm.filename ∧
       (delete_data dm i fs).2 = some (save_data (delete_data dm i fs).1))) ∧
    (¬(0 ≤ i ∧ i < (dm.data.length : Int)) → delete_data dm i fs = (dm, fs)) := by
  constructor
  · intro h
    have hn : i.toNat < dm.data.length := by omega
    simp only [delete_data, if_pos h]
    refine ⟨by simpa using List.length_eraseIdx_add_one hn, ?_, ?_, ?_, ?_⟩
    · intro j hj
      simpa using getElem?_eraseIdx_of_lt dm.data i.toNat j hj
    · intro j hj
      simpa using getElem?_eraseIdx_of_ge dm.data i.toNat j hn hj
    · trivial
    · trivial
  · intro h
    simp only [delete_data, if_neg h]

/-- Witness for C5: deleting index 0 of a concrete two-record store leaves one
record and moves the old position 1 to position 0, and deleting index 7 of
the same store changes nothing. -/
theorem c5_delete_witness :
    (delete_data c5Store 0 Option.none).1.data.length + 1 = c5Store.data.length ∧
    (delete_data c5Store 0 Option.none).1.data[(0 : Nat)]? = c5Store.data[(0 : Nat) + 1]? ∧
    delete_data c5Store 7 Option.none = (c5Store, Option.none) :=
  ⟨((c5_delete_shifts_down_out_of_range_noop c5Store Option.none 0).1 (by decide)).1,
   ((c5_delete_shifts_down_out_of_range_noop c5Store Option.none 0).1
      (by decide)).2.2.1 0 (by decide),
   (c5_delete_shifts_down_out_of_range_noop c5Store Option.none 7).2 (by decide)⟩

/-- Claim C6 (confirmed). For every store state and all inputs, `add_data`
appends the record built from the inputs at the tail (length grows by exactly
one, the tail position holds the new record, every existing position is
unchanged — in particular a duplicate name is accepted like any other), keeps
the filename, and writes `save_data` of the new state. -/
theorem c6_add_appends_and_saves (dm : DataManager) (fi c p cb : PyVal) :
    (add_data dm fi c p cb).1.data = dm.data ++ [⟨fi, c, p, cb⟩] ∧
    (add_data dm fi c p cb).1.data.length = dm.data.length + 1 ∧
    (add_data dm fi c p cb).1.data[dm.data.length]? = some ⟨fi, c, p, cb⟩ ∧
    (∀ j : Nat, j < dm.data.length →
      (add_data dm fi c p cb).1.data[j]? = dm.data[j]?) ∧
    (add_data dm fi c p cb).1.filename = dm.filename ∧
    (add_data dm fi c p cb).2 = save_data (add_data dm fi c p cb).1 := by
  refine ⟨rfl, by simp [add_data], by simp [add_data], ?_, rfl, rfl⟩
  intro j hj
  simp [add_data, List.getElem?_append, hj]

/-- Counterexample to claim C7. The claim says a second construction does not
inherit or share the record sequence of a previously constructed instance
through hidden global state. In the code `DataManager()` is a Singleton: after
constructing once and adding one record through the returned handle, a second
`DataManager()` returns an instance whose data already holds that record —
the prior state is inherited through the class attribute `_instance`. -/
theorem c7_second_construction_inherits_state :
    c7Trace.data = [⟨.str "A", .num 100, .num 5, .num 10⟩] := by decide

/-- Claim C7 as amended. Construction is a process-wide Singleton, not an
independent instance: when the class attribute already holds an instance,
`DataManager()` returns that very instance with its current state and changes
nothing; only when the slot is empty does it create the instance, with empty
data and the default filename, and store it in the slot. -/
theorem c7_new_returns_shared_singleton (dm : DataManager) (f : Option CsvFile) :
    DataManager_new ⟨some dm, f⟩ = (dm, ⟨some dm, f⟩) ∧
    DataManager_new ⟨Option.none, f⟩ =
      (⟨[], "food_nutrition.csv"⟩, ⟨some ⟨[], "food_nutrition.csv"⟩, f⟩) :=
  ⟨rfl, rfl⟩

/-- Claim C8 (confirmed). On an empty store, `calculate_mean` and
`calculate_median` fail with `statistics.StatisticsError` — a defined error —
for every field name (`"calories"` included); being errors, they never return
a numeric value such as 0. -/
theorem c8_mean_median_empty_store_error (fn field : String) :
    calculate_mean ⟨[], fn⟩ field = .error .statisticsError ∧
    calculate_median ⟨[], fn⟩ field = .error .statisticsError :=
  ⟨rfl, rfl⟩

/-- Counterexample to claim C9. The claim says that for every store state an
unrecognized field makes `filter` and `mean` fail with a `FieldError`. On the
empty store `filter_data` with the field `"unknown"` succeeds with the empty
list, and `calculate_mean` fails with `StatisticsError` (the empty-data
error), not a field error — indeed no `FieldError` class exists in the
program. -/
theorem c9_empty_store_unknown_field_no_fielderror :
    filter_data c9EmptyStore "unknown" (.str "x") = .ok [] ∧
    calculate_mean c9EmptyStore "unknown" = .error .statisticsError :=
  ⟨rfl, rfl⟩

/-- Claim C9 as amended. On a store with at least one record, `filter_data`,
`calculate_mean` and `calculate_median` called with a field name that names
no attribute of the record instance at all — not one of the four data fields
and not a class/inherited attribute either — fail with Python's
`AttributeError`, raised by the dynamic `getattr`; the program defines no
`FieldError`. Field names that `getattr` does resolve behave otherwise, as
the closed conjuncts show on a one-record store: filtering by `__doc__`
succeeds with the empty list (the docstring equals no CLI text), the mean of
`__doc__` fails with `ValueError` (the docstring is not numeric text) and
the mean of `__class__` fails with `TypeError` (a class is not a float). On
the empty store the comprehensions never reach `getattr`: filter succeeds
with the empty list and mean/median fail with `StatisticsError`, as the
counterexample shows. -/
theorem c9_unknown_field_raises_attributeerror
    (dm : DataManager) (field : String) (value : PyVal)
    (hne : dm.data ≠ [])
    (h1 : field ≠ "food_item") (h2 : field ≠ "calories")
    (h3 : field ≠ "protein") (h4 : field ≠ "carbs")
    (hInh : inheritedAttr field = Option.none) :
    (filter_data dm field value = .error .attributeError ∧
     calculate_mean dm field = .error .attributeError ∧
     calculate_median dm field = .error .attributeError) ∧
    filter_data c9Store "__doc__" (.str "x") = .ok [] ∧
    calculate_mean c9Store "__doc__" = .error .valueError ∧
    calculate_mean c9Store "__class__" = .error .typeError := by
  have hg : ∀ it : FoodData, getattrFD it field = .error .attributeError := by
    intro it
    simp [getattrFD, h1, h2, h3, h4, hInh]
  refine ⟨?_, by decide, by decide, by decide⟩
  match hd : dm.data with
  | [] => exact absurd hd hne
  | it :: rest =>
    refine ⟨?_, ?_, ?_⟩
    · simp only [filter_data, hd, filterList, hg it]
      rfl
    · simp only [calculate_mean, fieldValues, hd, List.mapM, List.mapM.loop, hg]
      rfl
    · simp only [calculate_median, fieldValues, hd, List.mapM, List.mapM.loop, hg]
      rfl

/-- Witness for the amended C9 at a concrete one-record store: the field
`"unknown"` resolves to no attribute and gives `AttributeError` everywhere,
while the resolved attributes `__doc__` and `__class__` give the non-field
behaviors. -/
theorem c9_unknown_field_witness :
    (filter_data c9Store "unknown" (.str "x") = .error .attributeError ∧
     calculate_mean c9Store "unknown" = .error .attributeError ∧
     calculate_median c9Store "unknown" = .error .attributeError) ∧
    filter_data c9Store "__doc__" (.str "x") = .ok [] ∧
    calculate_mean c9Store "__doc__" = .error .valueError ∧
    calculate_mean c9Store "__class__" = .error .typeError :=
  c9_unknown_field_raises_attributeerror c9Store "unknown" (.str "x")
    (by decide) (by decide) (by decide) (by decide) (by decide) (by decide)

/-- Claim C10 (confirmed). The analytics operations — mean, median and filter
— read `self.data` and touch no file: as state-passing operations they return
the store and the backing table exactly as given, for every store state,
field and value. -/
theorem c10_analytics_leave_state_unchanged (dm : DataManager)
    (fs : Option CsvFile) (field : String) (value : PyVal) :
    (calculate_mean_op dm fs field).2 = (dm, fs) ∧
    (calculate_median_op dm fs field).2 = (dm, fs) ∧
    (filter_data_op dm fs field value).2 = (dm, fs) :=
  ⟨rfl, rfl, rfl⟩

end FoodApp
